import Mathlib

/-!
Verification of the YourTrend-AI repository (src/YTPI.py and
src/dsp_streamlit/reportwriter_final.py) against its specification.

The Python code is shallowly embedded: external collaborators (yt-dlp
download, whisper transcription, pytube search, the filesystem, environment
variables) are parameters given as pure functions, and the side effects the
scripts perform (stage invocations, directory creation, file writes) are
recorded as explicit event lists. Machine arithmetic is on `Nat` (the Python
values involved are non-negative) and fallible calls return `Option`/`Except`.
-/

/-! ## Embedding of src/YTPI.py -/

/-- External collaborators of the YTPI pipeline loop (`main`, lines 207-226):
`download` embeds `download_audio(url)`, which returns the temp-audio file
path on success and `None` on a caught exception (an empty path is never
returned, so Python truthiness of the result coincides with `isSome`);
`transcribe` embeds `transcribe_audio(audio_path)`, which returns the
transcript text on success and the empty string `""` on a caught exception
(the error sentinel of the source). -/
structure Collab where
  download : String → Option String
  transcribe : String → String

/-- Events observable while one item is processed: stage invocations and the
temp-file removal of `main`, lines 212-225. -/
inductive Ev where
  | download (url : String)
  | transcribe (audioPath : String)
  | remove (audioPath : String)
deriving DecidableEq, Repr

/-- The events produced for a single selected url by the loop body of `main`
(lines 212-225): `download_audio` is always invoked; only when it returns a
path is `transcribe_audio` invoked on that path, followed by the attempt to
remove the temp file. -/
def processItemEvents (c : Collab) (url : String) : List Ev :=
  match c.download url with
  | none => [Ev.download url]
  | some p => [Ev.download url, Ev.transcribe p, Ev.remove p]

/-- The contribution of one selected url to `all_transcripts` in `main`
(lines 212-219): `some t` when the download returned a path and the
transcript `t` was truthy (non-empty), otherwise nothing is appended. -/
def processItem (c : Collab) (url : String) : Option String :=
  match c.download url with
  | none => none
  | some p =>
    let t := c.transcribe p
    if t = "" then none else some t

/-- One iteration of the loop of `main` (lines 212-225) acting on the
`all_transcripts` accumulator: append the transcript when the download
returned a path and the transcript is truthy, otherwise leave it unchanged. -/
def selStep (c : Collab) (acc : List String) (url : String) : List String :=
  match c.download url with
  | none => acc
  | some p =>
    let t := c.transcribe p
    if t = "" then acc else acc ++ [t]

/-- The `all_transcripts` list accumulated by the loop of `main`
(lines 209-225), as the fold the Python `for` loop performs. -/
def runSelected (c : Collab) (urls : List String) : List String :=
  urls.foldl (selStep c) []

/-- All events of one batch, in processing order of the `for` loop. -/
def batchEvents (c : Collab) (urls : List String) : List Ev :=
  urls.foldr (fun u acc => processItemEvents c u ++ acc) []

/-- `combined_transcript = "\n".join(all_transcripts)` of `main`, line 235
(also the join inside `generate_idea`, line 112). -/
def combined_transcript (c : Collab) (urls : List String) : String :=
  String.intercalate "\n" (runSelected c urls)

/-- `f"{n:02d}"` for a non-negative `n`: zero-padded to two digits. -/
def pad2 (n : Nat) : String :=
  if n < 10 then "0" ++ toString n else toString n

/-- `format_duration` (src/YTPI.py, lines 137-146). Durations come from
`result.get('duration', 0)` and are non-negative. -/
def format_duration (seconds : Nat) : String :=
  if seconds = 0 then "길이 정보 없음"
  else
    let hours := seconds / 3600
    let minutes := (seconds % 3600) / 60
    let secs := seconds % 60
    if hours > 0 then toString hours ++ ":" ++ pad2 minutes ++ ":" ++ pad2 secs
    else toString minutes ++ ":" ++ pad2 secs

/-! ### pathlib and the temp-audio scratch path -/

/-- Split a character list at every `/`, keeping empty components, exactly
as Python's `str.split('/')` does. -/
def splitSlash : List Char → List (List Char)
  | [] => [[]]
  | ch :: rest =>
    let r := splitSlash rest
    if ch = '/' then [] :: r
    else
      match r with
      | [] => [[ch]]
      | h :: t => (ch :: h) :: t

/-- The slash-separated components of a string. -/
def slashComponents (s : String) : List String :=
  (splitSlash s.data).map String.mk

/-- `PurePath(s).name` for a slash-separated string: the last component,
ignoring empty components and `.` components (pathlib drops both). -/
def pathName (s : String) : String :=
  (((slashComponents s).filter (fun comp => comp != "" && comp != ".")).getLastD "")

/-- Index of the last `.` in a character list, if any. -/
def rfindDot (cs : List Char) : Option Nat :=
  ((List.range cs.length).filter (fun i => cs.getD i ' ' == '.')).getLast?

/-- `PurePath` stem of a name: pathlib keeps the whole name unless the last
dot is at an index `i` with `0 < i < len - 1`, in which case it keeps the
part before that dot. -/
def stemOfName (name : String) : String :=
  let cs := name.data
  match rfindDot cs with
  | some i => if 0 < i ∧ i + 1 < cs.length then String.mk (cs.take i) else name
  | none => name

/-- `Path(url).stem` as used by `download_audio` (src/YTPI.py, lines 82, 87). -/
def pathStem (url : String) : String :=
  stemOfName (pathName url)

/-- The temp-audio path `f'temp_audio_{Path(url).stem}.mp3'` allocated to a
url by `download_audio` (src/YTPI.py, lines 82 and 87). -/
def temp_audio_path (url : String) : String :=
  "temp_audio_" ++ pathStem url ++ ".mp3"

/-! ### search_videos and get_video_info -/

/-- The video descriptor the pytube `Search` collaborator yields
(`video.video_id`, `video.title`, `video.author`; the latter two may be
`None`). -/
structure RawVideo where
  video_id : String
  title : Option String
  author : Option String
deriving DecidableEq, Repr

/-- The info dictionary `yt_dlp.extract_info` returns; absent keys are
`none` (the source supplies defaults via `result.get`). -/
structure YdlInfo where
  title : Option String
  thumbnail : Option String
  duration : Option Nat
  view_count : Option Nat
  uploader : Option String
deriving DecidableEq, Repr

/-- The row `get_video_info` produces for the search-results DataFrame. -/
structure VideoInfo where
  title : String
  url : String
  thumbnail : String
  duration : Nat
  view_count : Nat
  author : String
deriving DecidableEq, Repr

/-- The watch url built at src/YTPI.py line 33. -/
def watchUrl (video_id : String) : String :=
  "https://youtube.com/watch?v=" ++ video_id

/-- The fallback thumbnail url (src/YTPI.py lines 46 and 56). -/
def maxresUrl (video_id : String) : String :=
  "https://img.youtube.com/vi/" ++ video_id ++ "/maxresdefault.jpg"

/-- `get_video_info` (src/YTPI.py, lines 30-60): on a successful
`extract_info` call the fields are taken from the result with the source's
defaults; on a caught exception the fallback dictionary is returned. -/
def get_video_info (extract : String → Except String YdlInfo)
    (video : RawVideo) : VideoInfo :=
  let url := watchUrl video.video_id
  match extract url with
  | Except.ok r =>
    { title := r.title.getD "제목 없음"
      url := url
      thumbnail := r.thumbnail.getD (maxresUrl video.video_id)
      duration := r.duration.getD 0
      view_count := r.view_count.getD 0
      author := r.uploader.getD "작성자 정보 없음" }
  | Except.error _ =>
    { title := video.title.getD "제목 없음"
      url := url
      thumbnail := maxresUrl video.video_id
      duration := 0
      view_count := 0
      author := video.author.getD "작성자 정보 없음" }

/-- `search_videos` (src/YTPI.py, lines 61-72): `search` embeds the pytube
`Search(keyword).results` access, which either yields the result list or
raises (`Except.error`); the source slices the first `max_results` entries,
maps `get_video_info` over them, and returns an empty DataFrame when the
`try` block raised. -/
def search_videos (search : String → Except String (List RawVideo))
    (extract : String → Except String YdlInfo)
    (keyword : String) (max_results : Nat) : List VideoInfo :=
  match search keyword with
  | Except.error _ => []
  | Except.ok results => (results.take max_results).map (get_video_info extract)

/-! ## Embedding of src/dsp_streamlit/reportwriter_final.py -/

/-- Environment variables (`os.getenv`): `none` when unset. -/
structure Env where
  getenv : String → Option String

/-- The error message raised at src/dsp_streamlit/reportwriter_final.py,
line 21. -/
def apiKeyErrMsg : String :=
  "OPENAI_API_KEY가 설정되지 않았습니다. .env 파일을 확인해주세요."

/-- The module-level startup of reportwriter_final.py (lines 17-21): reads
`OPENAI_API_KEY` and raises `ValueError` when it is falsy (unset or empty),
before any report is generated; this runs at import time, before `main`. -/
def reportwriter_startup (env : Env) : Except String String :=
  match env.getenv "OPENAI_API_KEY" with
  | none => Except.error apiKeyErrMsg
  | some k => if k = "" then Except.error apiKeyErrMsg else Except.ok k

/-- The startup of YTPI's `main` (src/YTPI.py, lines 165-166): the key is
read and stored in `openai.api_key` without any check; `main` then proceeds
to the UI and, on the button press, runs the pipeline loop over the selected
urls regardless of whether the key was present. -/
def ytpi_api_key (env : Env) : Option String :=
  env.getenv "OPENAI_API_KEY"

/-- The part of YTPI's `main` relevant to startup and batch processing: the
stored key (line 166), the stage events and the accumulated transcripts of
the loop at lines 207-226. -/
def ytpi_run (env : Env) (c : Collab) (selected : List String) :
    Option String × List Ev × List String :=
  (ytpi_api_key env, batchEvents c selected, runSelected c selected)

/-! ### save_report -/

/-- Side effects `save_report` performs, in order. -/
inductive SaveEffect where
  | mkdirReports
  | writeText (filepath : String) (content : String)
  | writePdf (filepath : String) (html : String)
  | writeDocx (filepath : String) (content : String)
deriving DecidableEq, Repr

/-- `save_report(content, filename, format)`
(src/dsp_streamlit/reportwriter_final.py, lines 91-118): always creates the
`reports` directory first, then writes the file for formats `md`, `pdf`,
`docs`, and raises `ValueError` (returned as `some` error message) for any
other format. `md2html` embeds the `markdown.markdown` collaborator used by
the pdf branch. -/
def save_report (md2html : String → String)
    (content filename format : String) : List SaveEffect × Option String :=
  let filepath := "reports/" ++ filename ++ "." ++ format
  if format = "md" then
    ([SaveEffect.mkdirReports, SaveEffect.writeText filepath content], none)
  else if format = "pdf" then
    ([SaveEffect.mkdirReports, SaveEffect.writePdf filepath (md2html content)], none)
  else if format = "docs" then
    ([SaveEffect.mkdirReports, SaveEffect.writeDocx filepath content], none)
  else
    ([SaveEffect.mkdirReports],
     some "지원되지 않는 형식입니다. 'md', 'pdf', 또는 'docs'를 사용하세요.")

/-! ### load_template -/

/-- A paragraph of a word-processor document: its style name and text, as
`python-docx` exposes them. -/
structure Paragraph where
  styleName : String
  text : String
deriving DecidableEq, Repr

/-- The filesystem collaborator of `load_template`: existence check
(`os.path.exists`), plain-text read (`open(...).read()`, which may raise),
and the docx paragraph list (`Document(path).paragraphs`, which may raise). -/
structure FS where
  pathExists : String → Bool
  readTxt : String → Except String String
  readDocx : String → Except String (List Paragraph)

/-- Diagnostics `load_template` prints alongside returning `None`. -/
inductive LoadDiag where
  | notFound (path : String)
  | unsupported (ext : String)
  | readError (msg : String)
deriving DecidableEq, Repr

/-- One step of the docx section loop (reportwriter_final.py, lines
134-140): a `Heading`-styled paragraph flushes the current section (when
non-empty) and starts a new one; every paragraph's text is appended to the
current section. -/
def docxStep (st : List String × List String) (p : Paragraph) :
    List String × List String :=
  let (sections, current) := st
  if p.styleName.startsWith "Heading" then
    let sections := if current.isEmpty then sections
      else sections ++ [String.intercalate "\n" current]
    (sections, [p.text])
  else (sections, current ++ [p.text])

/-- The docx branch (lines 131-143): fold the paragraphs, flush the last
section, join sections with blank lines. -/
def docxSections (paras : List Paragraph) : String :=
  let (sections, current) := paras.foldl docxStep ([], [])
  let sections := if current.isEmpty then sections
    else sections ++ [String.intercalate "\n" current]
  String.intercalate "\n\n" sections

/-- `os.path.splitext(path)[1].lower()` (line 128): the lowercased extension
of the last path component; empty when the component's dots are all leading
or absent. -/
def file_extension (path : String) : String :=
  let base := ((slashComponents path).getLastD "")
  let cs := base.data
  match rfindDot cs with
  | some i =>
    if (cs.take i).any (fun ch => ch ≠ '.') then
      String.mk ((cs.drop i).map Char.toLower)
    else ""
  | none => ""

/-- `load_template(template_path)` (reportwriter_final.py, lines 120-152):
missing file yields `None` with a not-found diagnostic; `.docx` yields the
joined heading-delimited sections; `.txt`/`.md` yield the file content
verbatim; other extensions yield `None` with an unsupported-format
diagnostic; any exception inside the `try` yields `None` with a read-error
diagnostic. The function never raises to its caller. -/
def load_template (fs : FS) (template_path : String) :
    Option String × Option LoadDiag :=
  if fs.pathExists template_path = false then
    (none, some (LoadDiag.notFound template_path))
  else
    let ext := file_extension template_path
    if ext = ".docx" then
      match fs.readDocx template_path with
      | Except.error e => (none, some (LoadDiag.readError e))
      | Except.ok paras => (some (docxSections paras), none)
    else if ext = ".txt" ∨ ext = ".md" then
      match fs.readTxt template_path with
      | Except.error e => (none, some (LoadDiag.readError e))
      | Except.ok content => (some content, none)
    else (none, some (LoadDiag.unsupported ext))

/-! ## Concrete instances used to exercise the definitions -/

/-- An environment with no variables set. -/
def noKeyEnv : Env := ⟨fun _ => none⟩

/-- A collaborator whose download and transcription always succeed. -/
def demoCollab : Collab :=
  ⟨fun url => some (temp_audio_path url), fun _ => "transcript"⟩

/-- A collaborator whose download fails exactly on the url `"u"`. -/
def cFail : Collab :=
  ⟨fun url => if url = "u" then none else some (temp_audio_path url),
   fun _ => "transcript"⟩

/-- A collaborator whose transcription fails (returns `""`) exactly on the
audio path of the url `"u"`. -/
def cMixed : Collab :=
  ⟨fun url => some ("path_" ++ url),
   fun p => if p = "path_u" then "" else "text"⟩

/-- A filesystem on which every path exists, text reads yield `"hello"` and
docx reads yield an empty document. -/
def fsDemo : FS :=
  ⟨fun _ => true, fun _ => Except.ok "hello", fun _ => Except.ok []⟩

/-- A search collaborator that always raises. -/
def searchRaises : String → Except String (List RawVideo) :=
  fun _ => Except.error "boom"

/-- An extractor that always raises. -/
def extractRaises : String → Except String YdlInfo :=
  fun _ => Except.error "nope"

/-! ## Helper lemmas on the pipeline loop -/

theorem foldl_selStep (c : Collab) (urls : List String) (acc : List String) :
    urls.foldl (selStep c) acc = acc ++ urls.filterMap (processItem c) := by
  induction urls generalizing acc with
  | nil => simp
  | cons u rest ih =>
    rw [List.foldl_cons]
    cases hd : c.download u with
    | none =>
      have h1 : selStep c acc u = acc := by simp [selStep, hd]
      have h2 : processItem c u = none := by simp [processItem, hd]
      rw [h1, ih, List.filterMap_cons, h2]
    | some p =>
      by_cases ht : c.transcribe p = ""
      · have h1 : selStep c acc u = acc := by simp [selStep, hd, ht]
        have h2 : processItem c u = none := by simp [processItem, hd, ht]
        rw [h1, ih, List.filterMap_cons, h2]
      · have h1 : selStep c acc u = acc ++ [c.transcribe p] := by
          simp [selStep, hd, ht]
        have h2 : processItem c u = some (c.transcribe p) := by
          simp [processItem, hd, ht]
        rw [h1, ih, List.filterMap_cons, h2]
        simp

theorem runSelected_eq (c : Collab) (urls : List String) :
    runSelected c urls = urls.filterMap (processItem c) := by
  have h := foldl_selStep c urls []
  simpa [runSelected] using h

theorem runSelected_append (c : Collab) (l1 l2 : List String) :
    runSelected c (l1 ++ l2) = runSelected c l1 ++ runSelected c l2 := by
  simp [runSelected_eq, List.filterMap_append]

theorem runSelected_congr (c c2 : Collab) (urls : List String)
    (h : ∀ v ∈ urls, processItem c2 v = processItem c v) :
    runSelected c2 urls = runSelected c urls := by
  rw [runSelected_eq, runSelected_eq]
  induction urls with
  | nil => rfl
  | cons u rest ih =>
    rw [List.filterMap_cons, List.filterMap_cons,
      h u (List.mem_cons_self u rest),
      ih (fun v hv => h v (List.mem_cons_of_mem _ hv))]

theorem batchEvents_cons (c : Collab) (u : String) (rest : List String) :
    batchEvents c (u :: rest) = processItemEvents c u ++ batchEvents c rest :=
  rfl

theorem download_mem_processItemEvents (c : Collab) (url : String) :
    Ev.download url ∈ processItemEvents c url := by
  cases hd : c.download url <;> simp [processItemEvents, hd]

theorem download_mem_batchEvents (c : Collab) (urls : List String) (v : String)
    (hv : v ∈ urls) : Ev.download v ∈ batchEvents c urls := by
  induction urls with
  | nil => cases hv
  | cons u rest ih =>
    rw [batchEvents_cons]
    rcases List.mem_cons.mp hv with h | h
    · subst h; exact List.mem_append_left _ (download_mem_processItemEvents c v)
    · exact List.mem_append_right _ (ih h)

/-! ## Claim theorems -/

/-- C1: Failure isolation. If one selected item `u` fails at some stage
(`processItem c u = none`, covering a failed download or a failed
transcription), every other item is still processed (its download stage is
invoked), and the siblings' accumulated results are exactly what they would
have been under a collaborator `cgood` for which `u` succeeds but every
other item behaves the same: the failing item is merely skipped and never
aborts processing of its siblings. -/
theorem C1_failure_isolation (c cgood : Collab) (pre post : List String)
    (u : String)
    (hfail : processItem c u = none)
    (hagree : ∀ v, v ≠ u → processItem cgood v = processItem c v)
    (hpre : u ∉ pre) (hpost : u ∉ post) :
    (∀ v ∈ pre ++ u :: post, Ev.download v ∈ batchEvents c (pre ++ u :: post)) ∧
    runSelected c (pre ++ u :: post) =
      runSelected cgood pre ++ runSelected cgood post := by
  constructor
  · intro v hv
    exact download_mem_batchEvents c _ v hv
  · have hsingle : runSelected c [u] = [] := by
      simp [runSelected_eq, hfail]
    have hpreEq : runSelected cgood pre = runSelected c pre :=
      runSelected_congr c cgood pre
        (fun v hv => hagree v (fun he => hpre (he ▸ hv)))
    have hpostEq : runSelected cgood post = runSelected c post :=
      runSelected_congr c cgood post
        (fun v hv => hagree v (fun he => hpost (he ▸ hv)))
    calc runSelected c (pre ++ u :: post)
        = runSelected c pre ++ (runSelected c [u] ++ runSelected c post) := by
          rw [show pre ++ u :: post = pre ++ ([u] ++ post) from rfl,
            runSelected_append, runSelected_append]
      _ = runSelected c pre ++ runSelected c post := by rw [hsingle]; simp
      _ = runSelected cgood pre ++ runSelected cgood post := by
          rw [hpreEq, hpostEq]

/-- Witness for C1 at a concrete batch: with `cFail` failing only on `"u"`
and `demoCollab` succeeding everywhere, the siblings `"a"` and `"b"` of the
batch `["a", "u", "b"]` produce exactly the results they produce under the
all-succeeding collaborator. -/
theorem C1_failure_isolation_witness :
    runSelected cFail (["a"] ++ "u" :: ["b"]) =
      runSelected demoCollab ["a"] ++ runSelected demoCollab ["b"] :=
  (C1_failure_isolation cFail demoCollab ["a"] ["b"] "u"
    (by simp [processItem, cFail])
    (by intro v hv; simp [processItem, cFail, demoCollab, hv])
    (by decide) (by decide)).2

/-- C2: Stage ordering within one item. The transcription stage is invoked
only on the path a successful download returned (never when the download
failed); once the download fails terminally, no further stage runs for that
item (the item's event trace is just the failed download); and synthesis
never consumes an item whose transcription did not succeed: every transcript
in `all_transcripts` is non-empty and comes from an item whose download
returned a path and whose transcription of that path produced it. -/
theorem C2_stage_order (c : Collab) (url : String) (urls : List String) :
    (∀ p, Ev.transcribe p ∈ processItemEvents c url → c.download url = some p) ∧
    (c.download url = none → processItemEvents c url = [Ev.download url]) ∧
    (∀ t ∈ runSelected c urls, t ≠ "" ∧
      ∃ u ∈ urls, ∃ p, c.download u = some p ∧ c.transcribe p = t) := by
  refine ⟨?_, ?_, ?_⟩
  · intro p hp
    cases hd : c.download url with
    | none => simp [processItemEvents, hd] at hp
    | some q =>
      simp [processItemEvents, hd] at hp
      rw [hp]
  · intro h
    simp [processItemEvents, h]
  · intro t ht
    rw [runSelected_eq] at ht
    obtain ⟨u, hu, hpu⟩ := List.mem_filterMap.mp ht
    cases hd : c.download u with
    | none => simp [processItem, hd] at hpu
    | some p =>
      by_cases htr : c.transcribe p = ""
      · simp [processItem, hd, htr] at hpu
      · simp [processItem, hd, htr] at hpu
        exact ⟨hpu ▸ htr, u, hu, p, hd, hpu⟩

/-- Witness for C2 at a concrete item: `cFail`'s download of `"u"` fails and
its event trace for `"u"` is the failed download alone — transcription and
removal never run. -/
theorem C2_stage_order_witness :
    processItemEvents cFail "u" = [Ev.download "u"] :=
  (C2_stage_order cFail "u" []).2.1 (by simp [cFail])

/-- C3: Silent omission of failed transcriptions. The transcription
collaborator returns text, with the empty string as its error value; when
the transcription of the selected video `u` fails (returns `""`), that item
contributes nothing (`processItem = none`), the accumulated transcript list
of the batch is exactly that of its siblings, and so the combined input to
synthesis simply omits that video's transcript — nothing in the result marks
the item as a per-item failure. -/
theorem C3_silent_omission (c : Collab) (pre post : List String) (u p : String)
    (hdl : c.download u = some p) (htr : c.transcribe p = "") :
    processItem c u = none ∧
    runSelected c (pre ++ u :: post) = runSelected c pre ++ runSelected c post ∧
    combined_transcript c (pre ++ u :: post) =
      String.intercalate "\n" (runSelected c pre ++ runSelected c post) := by
  have hpi : processItem c u = none := by simp [processItem, hdl, htr]
  have hlist : runSelected c (pre ++ u :: post) =
      runSelected c pre ++ runSelected c post := by
    have hsingle : runSelected c [u] = [] := by
      simp [runSelected_eq, hpi]
    calc runSelected c (pre ++ u :: post)
        = runSelected c pre ++ (runSelected c [u] ++ runSelected c post) := by
          rw [show pre ++ u :: post = pre ++ ([u] ++ post) from rfl,
            runSelected_append, runSelected_append]
      _ = runSelected c pre ++ runSelected c post := by rw [hsingle]; simp
  exact ⟨hpi, hlist, by rw [combined_transcript, hlist]⟩

/-- Witness for C3 at a concrete batch: under `cMixed` the transcription of
`"u"`'s audio fails, and the batch `["a", "u", "b"]` accumulates exactly the
siblings' transcripts. -/
theorem C3_silent_omission_witness :
    runSelected cMixed (["a"] ++ "u" :: ["b"]) =
      runSelected cMixed ["a"] ++ runSelected cMixed ["b"] :=
  (C3_silent_omission cMixed ["a"] ["b"] "u" "path_u" rfl (by simp [cMixed])).2.1

/-- C4: For every keyword and limit, `search_videos` returns at most
`max_results` results; when the search collaborator raises it returns the
empty list instead (never raising itself); and the exact count is the
minimum of the limit and the number of available results, so fewer than
`max_results` may be returned. -/
theorem C4_search_bounds (search : String → Except String (List RawVideo))
    (extract : String → Except String YdlInfo)
    (keyword : String) (max_results : Nat) :
    (search_videos search extract keyword max_results).length ≤ max_results ∧
    (∀ e, search keyword = Except.error e →
      search_videos search extract keyword max_results = []) ∧
    (∀ vs, search keyword = Except.ok vs →
      (search_videos search extract keyword max_results).length =
        min max_results vs.length) := by
  refine ⟨?_, ?_, ?_⟩
  · cases h : search keyword with
    | error e => simp [search_videos, h]
    | ok vs =>
      simp only [search_videos, h, List.length_map, List.length_take]
      exact Nat.min_le_left _ _
  · intro e he
    simp [search_videos, he]
  · intro vs hvs
    simp [search_videos, hvs]

/-- Witness for C4 at a concrete input: when the pytube search raises, the
result is the empty list. -/
theorem C4_search_bounds_witness :
    search_videos searchRaises extractRaises "ai" 5 = [] :=
  (C4_search_bounds searchRaises extractRaises "ai" 5).2.1 "boom" rfl

/-- C9: `save_report` raises `ValueError` exactly when the requested format
is none of `md`, `pdf`, `docs`; the first side effect is always the creation
of the `reports` directory, so in the error case the directory has already
been created — the operation is not state-unchanged on error (in that case
the directory creation is also its only effect). -/
theorem C9_save_report_error (md2html : String → String)
    (content filename format : String) :
    ((save_report md2html content filename format).2.isSome ↔
      (format ≠ "md" ∧ format ≠ "pdf" ∧ format ≠ "docs")) ∧
    (save_report md2html content filename format).1.head? =
      some SaveEffect.mkdirReports ∧
    ((save_report md2html content filename format).2.isSome →
      (save_report md2html content filename format).1 =
        [SaveEffect.mkdirReports]) := by
  by_cases h1 : format = "md"
  · simp [save_report, h1]
  · by_cases h2 : format = "pdf"
    · simp [save_report, h1, h2]
    · by_cases h3 : format = "docs"
      · simp [save_report, h1, h2, h3]
      · simp [save_report, h1, h2, h3]

/-- Witness for C9 at a concrete unsupported format: requesting `"html"`
errors, yet the `reports` directory creation has already happened and is the
sole effect. -/
theorem C9_save_report_error_witness :
    (save_report id "body" "r" "html").1 = [SaveEffect.mkdirReports] :=
  (C9_save_report_error id "body" "r" "html").2.2 (by simp [save_report])

/-- C5: Totality of the template loader. For every filesystem and path,
`load_template` returns `None` exactly when it also emits a diagnostic (it
never raises to the caller: every case yields a value); a missing file
yields `None` with the not-found diagnostic; an existing file of an
unsupported extension yields `None` with the unsupported-format diagnostic;
a supported plain-text file (`.txt`/`.md`) that reads successfully yields
its sections (the file content); a supported `.docx` file that reads
successfully yields its heading-delimited sections; and a read failure of a
supported file yields `None` with the read-error diagnostic. -/
theorem load_template_txt_ok (fs : FS) (path content : String)
    (hex : fs.pathExists path = true)
    (hsup : file_extension path = ".txt" ∨ file_extension path = ".md")
    (hread : fs.readTxt path = Except.ok content) :
    load_template fs path = (some content, none) := by
  have hdocx : file_extension path ≠ ".docx" := by
    rcases hsup with h | h <;> simp [h]
  simp [load_template, hex, hdocx, hsup, hread]

theorem C5_load_template_total (fs : FS) (path : String) :
    ((load_template fs path).1 = none ↔
      ((load_template fs path).2).isSome = true) ∧
    (fs.pathExists path = false →
      load_template fs path = (none, some (LoadDiag.notFound path))) ∧
    (fs.pathExists path = true →
      file_extension path ≠ ".docx" → file_extension path ≠ ".txt" →
      file_extension path ≠ ".md" →
      load_template fs path =
        (none, some (LoadDiag.unsupported (file_extension path)))) ∧
    (fs.pathExists path = true →
      (file_extension path = ".txt" ∨ file_extension path = ".md") →
      ∀ content, fs.readTxt path = Except.ok content →
      load_template fs path = (some content, none)) ∧
    (fs.pathExists path = true → file_extension path = ".docx" →
      ∀ paras, fs.readDocx path = Except.ok paras →
      load_template fs path = (some (docxSections paras), none)) ∧
    (fs.pathExists path = true → ∀ e,
      (file_extension path = ".docx" ∧ fs.readDocx path = Except.error e) ∨
      ((file_extension path = ".txt" ∨ file_extension path = ".md") ∧
        fs.readTxt path = Except.error e) →
      load_template fs path = (none, some (LoadDiag.readError e))) := by
  refine ⟨?_, ?_, ?_, ?_, ?_, ?_⟩
  · cases hex : fs.pathExists path with
    | false => simp [load_template, hex]
    | true =>
      by_cases hdocx : file_extension path = ".docx"
      · cases hr : fs.readDocx path with
        | error e => simp [load_template, hex, hdocx, hr]
        | ok paras => simp [load_template, hex, hdocx, hr]
      · by_cases htxt : file_extension path = ".txt" ∨ file_extension path = ".md"
        · cases hr : fs.readTxt path with
          | error e => simp [load_template, hex, hdocx, htxt, hr]
          | ok content => simp [load_template, hex, hdocx, htxt, hr]
        · simp [load_template, hex, hdocx, htxt]
  · intro hex
    simp [load_template, hex]
  · intro hex hdocx htxt hmd
    have hsup : ¬(file_extension path = ".txt" ∨ file_extension path = ".md") := by
      rintro (h | h) <;> [exact htxt h; exact hmd h]
    simp [load_template, hex, hdocx, hsup]
  · intro hex hsup content hread
    exact load_template_txt_ok fs path content hex hsup hread
  · intro hex hdocx paras hread
    simp [load_template, hex, hdocx, hread]
  · intro hex e he
    rcases he with ⟨hdocx, hread⟩ | ⟨hsup, hread⟩
    · simp [load_template, hex, hdocx, hread]
    · have hdocx : file_extension path ≠ ".docx" := by
        rcases hsup with h | h <;> simp [h]
      simp [load_template, hex, hdocx, hsup, hread]

/-- Witness for C5 at a concrete filesystem and path: loading `"t.txt"` from
`fsDemo` returns its content with no diagnostic. -/
theorem C5_load_template_total_witness :
    load_template fsDemo "t.txt" = (some "hello", none) :=
  (C5_load_template_total fsDemo "t.txt").2.2.2.1 rfl
    (Or.inl (by decide)) "hello" rfl

/-- C6: Round-trip for the plain-text format. Importing a plain-text
(`.txt`/`.md`) file containing `x` via `load_template` yields exactly `x`,
and exporting that content with `save_report` in format `md` writes a file
whose content is byte-equal to `x` (after creating the output directory). -/
theorem C6_plain_text_roundtrip (fs : FS) (path x : String)
    (md2html : String → String) (filename : String)
    (hex : fs.pathExists path = true)
    (hext : file_extension path = ".txt" ∨ file_extension path = ".md")
    (hread : fs.readTxt path = Except.ok x) :
    (load_template fs path).1 = some x ∧
    save_report md2html x filename "md" =
      ([SaveEffect.mkdirReports,
        SaveEffect.writeText ("reports/" ++ filename ++ ".md") x], none) := by
  constructor
  · rw [load_template_txt_ok fs path x hex hext hread]
  · have hdot : ("." : String) ++ "md" = ".md" := rfl
    simp [save_report, String.append_assoc, hdot]

/-- Witness for C6 at a concrete input: the content `"hello"` of the file
`"t.txt"` survives the import-then-export round trip byte-for-byte. -/
theorem C6_plain_text_roundtrip_witness :
    (load_template fsDemo "t.txt").1 = some "hello" ∧
    save_report id "hello" "out" "md" =
      ([SaveEffect.mkdirReports,
        SaveEffect.writeText "reports/out.md" "hello"], none) :=
  C6_plain_text_roundtrip fsDemo "t.txt" "hello" id "out" rfl
    (Or.inl (by decide)) rfl

/-- Counterexample to C7 as stated. In YTPI's `main` (lines 165-166) a
missing `OPENAI_API_KEY` is not fatal and is not detected at startup: with
no key in the environment, the program still invokes the download and
transcription stages on a selected item and accumulates its transcript, so
the run is not terminated before any item is processed. -/
theorem C7_counterexample :
    ytpi_api_key noKeyEnv = none ∧
    (ytpi_run noKeyEnv demoCollab [watchUrl "abc"]).2.1 ≠ [] ∧
    Ev.download (watchUrl "abc") ∈
      (ytpi_run noKeyEnv demoCollab [watchUrl "abc"]).2.1 ∧
    (ytpi_run noKeyEnv demoCollab [watchUrl "abc"]).2.2 = ["transcript"] := by
  refine ⟨rfl, ?_, ?_, ?_⟩ <;> decide

/-- C7 amended: only the report writer detects the missing credential at
startup. Its module-level check errors (raises `ValueError`) whenever
`OPENAI_API_KEY` is unset or empty, before any report is generated, and
succeeds otherwise; YTPI instead stores whatever `os.getenv` returned
without validating it, and its batch processing (stages run and transcripts
accumulated) is entirely independent of the environment. -/
theorem C7_startup_amended (env : Env) (c : Collab) (urls : List String) :
    ((env.getenv "OPENAI_API_KEY" = none ∨ env.getenv "OPENAI_API_KEY" = some "") →
      reportwriter_startup env = Except.error apiKeyErrMsg) ∧
    (∀ k, env.getenv "OPENAI_API_KEY" = some k → k ≠ "" →
      reportwriter_startup env = Except.ok k) ∧
    (∀ envB : Env, (ytpi_run env c urls).2 = (ytpi_run envB c urls).2) := by
  refine ⟨?_, ?_, fun _ => rfl⟩
  · rintro (h | h) <;> simp [reportwriter_startup, h]
  · intro k hk hne
    simp [reportwriter_startup, hk, hne]

/-- Witness for the amended C7 at a concrete environment: with no variables
set, the report writer's startup raises the configuration error. -/
theorem C7_startup_amended_witness :
    reportwriter_startup noKeyEnv = Except.error apiKeyErrMsg :=
  (C7_startup_amended noKeyEnv demoCollab []).1 (Or.inl rfl)

/-- Recover the stem from a temp-audio path: `temp_audio_path` only wraps
the stem in a fixed prefix and suffix, so equal paths force equal stems. -/
theorem temp_audio_path_inj (u1 u2 : String)
    (h : temp_audio_path u1 = temp_audio_path u2) :
    pathStem u1 = pathStem u2 := by
  have hd : ("temp_audio_".data ++ (pathStem u1).data) ++ ".mp3".data
      = ("temp_audio_".data ++ (pathStem u2).data) ++ ".mp3".data :=
    congrArg String.data h
  have h1 := List.append_cancel_right hd
  have h2 := List.append_cancel_left h1
  exact congrArg String.mk h2

/-- Counterexample to C8 as stated: two distinct selected video URLs whose
final components differ only after their last dot receive the same
temp-audio path, so the per-item scratch namespace is not unique. -/
theorem C8_counterexample :
    watchUrl "a.b" ≠ watchUrl "a.c" ∧
    temp_audio_path (watchUrl "a.b") = temp_audio_path (watchUrl "a.c") := by
  refine ⟨?_, ?_⟩ <;> decide

/-- C8 amended: the temp-audio paths of two selected URLs are distinct
whenever their `Path(url).stem` values are distinct; URLs with equal stems
(for instance two watch URLs whose ids differ only after a dot) collide on
the same temp path. -/
theorem C8_scratch_amended (u1 u2 : String)
    (h : pathStem u1 ≠ pathStem u2) :
    temp_audio_path u1 ≠ temp_audio_path u2 :=
  fun heq => h (temp_audio_path_inj u1 u2 heq)

/-- Witness for the amended C8 at concrete URLs: the watch URLs of the
dot-free ids `"abc"` and `"xyz"` have distinct stems and hence distinct
temp-audio paths. -/
theorem C8_scratch_amended_witness :
    temp_audio_path (watchUrl "abc") ≠ temp_audio_path (watchUrl "xyz") :=
  C8_scratch_amended (watchUrl "abc") (watchUrl "xyz") (by decide)

/-- Any string assembled around a `":"` separator contains a colon. -/
theorem colon_mem (a b : String) : ':' ∈ (a ++ ":" ++ b).data := by
  have h : (a ++ ":" ++ b).data = (a.data ++ [':']) ++ b.data := rfl
  rw [h]
  simp

/-- For a non-zero duration, `format_duration` produces a colon-separated
string (either `H:MM:SS` or `M:SS`). -/
theorem format_duration_split (s : Nat) (h : s ≠ 0) :
    ∃ a b, format_duration s = a ++ ":" ++ b := by
  by_cases hp : 0 < s / 3600
  · exact ⟨toString (s / 3600) ++ ":" ++ pad2 ((s % 3600) / 60), pad2 (s % 60),
      by simp [format_duration, h, hp]⟩
  · exact ⟨toString ((s % 3600) / 60), pad2 (s % 60),
      by simp [format_duration, h, hp]⟩

/-- Counterexample to C10 as stated: at 3600 seconds the code prints
`"1:00:00"`, with the hour field unpadded, not the fully zero-padded
`"01:00:00"` the claim's `H:MM:SS`-with-each-field-zero-padded reading
demands. -/
theorem C10_counterexample :
    format_duration 3600 = "1:00:00" ∧
    pad2 (3600 / 3600) ++ ":" ++ pad2 ((3600 % 3600) / 60) ++ ":" ++
      pad2 (3600 % 60) = "01:00:00" ∧
    format_duration 3600 ≠
      pad2 (3600 / 3600) ++ ":" ++ pad2 ((3600 % 3600) / 60) ++ ":" ++
        pad2 (3600 % 60) := by
  refine ⟨?_, ?_, ?_⟩ <;> decide

/-- C10 amended: `format_duration` returns the no-length placeholder exactly
when its input is 0; for `0 < s < 3600` it returns `M:SS` with
`M = s / 60` unpadded and `SS = s % 60` zero-padded to two digits; and for
`s ≥ 3600` it returns `H:MM:SS` where the hours field `H = s / 3600` is NOT
zero-padded while `MM = (s % 3600) / 60` and `SS = s % 60` are zero-padded
to two digits. -/
theorem C10_format_duration_amended (s : Nat) :
    (format_duration s = "길이 정보 없음" ↔ s = 0) ∧
    (0 < s → s < 3600 →
      format_duration s = toString (s / 60) ++ ":" ++ pad2 (s % 60)) ∧
    (3600 ≤ s →
      format_duration s = toString (s / 3600) ++ ":" ++
        pad2 ((s % 3600) / 60) ++ ":" ++ pad2 (s % 60)) := by
  refine ⟨⟨?_, ?_⟩, ?_, ?_⟩
  · intro heq
    by_contra hne
    obtain ⟨a, b, hab⟩ := format_duration_split s hne
    rw [hab] at heq
    have hmem := colon_mem a b
    rw [heq] at hmem
    exact (by decide : ':' ∉ "길이 정보 없음".data) hmem
  · intro h
    subst h
    rfl
  · intro h0 h36
    have hne : s ≠ 0 := Nat.pos_iff_ne_zero.mp h0
    have hdiv : s / 3600 = 0 := Nat.div_eq_of_lt h36
    have hmod : s % 3600 = s := Nat.mod_eq_of_lt h36
    simp [format_duration, hne, hdiv, hmod]
  · intro h
    have hne : s ≠ 0 := by omega
    have hpos : 0 < s / 3600 := Nat.div_pos h (by norm_num)
    simp [format_duration, hne, hpos]

/-- Witness for the amended C10 at concrete durations: 3661 seconds render
as `"1:01:01"` with an unpadded hour, and 61 seconds as `"1:01"`. -/
theorem C10_format_duration_amended_witness :
    format_duration 3661 = toString (3661 / 3600) ++ ":" ++
      pad2 ((3661 % 3600) / 60) ++ ":" ++ pad2 (3661 % 60) ∧
    format_duration 61 = toString (61 / 60) ++ ":" ++ pad2 (61 % 60) :=
  ⟨(C10_format_duration_amended 3661).2.2 (by norm_num),
   (C10_format_duration_amended 61).2.1 (by norm_num) (by norm_num)⟩
